import Mathlib

/-!
Verification of the `backup.c` command-line backup utility.

The development shallowly embeds the C program's logic:
  * `copy_file` / `copy_directory` (the recursive tree copier) as pure
    functions over an inductive source tree, parameterised by a fault
    oracle `Faults` that records which system calls fail on which paths;
  * `read_default_backup_dir` / `write_default_backup_dir` (the config
    store) as functions over the config file's content;
  * `create_timestamped_dir` as a function of the base path and the
    decoded local time, returning `Except` (`Except.error` models
    `exit(EXIT_FAILURE)`);
  * `main`'s control flow as `runMain` over an environment `Env`.

Destination-filesystem effects are returned as a `DEntryList` value (the
tree of directories and files this run creates under the destination,
`none` when an early return left nothing behind) together with a list of
the warning/error log lines emitted.
-/

namespace Backup

/-- The `PATH_MAX` constant from `<limits.h>` on Linux. -/
def PATH_MAX : Nat := 4096

/-- The `#define DEFAULT_TARGET_DIR "/media/pi/piBackup"` constant (backup.c line 17). -/
def DEFAULT_TARGET_DIR : String := "/media/pi/piBackup"

/-- Warning/error log lines emitted to stderr (only the failure-path
messages are tracked; purely cosmetic DEBUG/INFO chatter and the
`random_delay` pacing are dropped from the model). -/
inductive LogEvent where
  | errOpenSrcFile (p : String)
  | errOpenDstFile (p : String)
  | errWrite (src dst : String)
  | warnChmod (p : String)
  | errOpenDir (p : String)
  | errCreateDir (p : String)
  | warnSkippedEntry (p : String)
  | warnStatFailed (p : String)
  deriving DecidableEq, Repr

/-- Result of a `mkdir` call: success, failure with `errno == EEXIST`,
or failure with any other `errno`. -/
inductive MkdirResult where
  | ok
  | eexist
  | err
  deriving DecidableEq, Repr

/-- Fault oracle for the tree copier: which system call fails on which
path.  `fwriteFailsAt d = some i` means the `fwrite` of the `i`-th
4096-byte chunk to destination `d` fails (the copy loop `break`s there). -/
structure Faults where
  opendirFails : String → Bool
  mkdir : String → MkdirResult
  statFails : String → Bool
  fopenReadFails : String → Bool
  fopenWriteFails : String → Bool
  fwriteFailsAt : String → Option Nat
  chmodFails : String → Bool

/-- The fault-free environment: every system call succeeds. -/
def noFaults : Faults where
  opendirFails := fun _ => false
  mkdir := fun _ => .ok
  statFails := fun _ => false
  fopenReadFails := fun _ => false
  fopenWriteFails := fun _ => false
  fwriteFailsAt := fun _ => none
  chmodFails := fun _ => false

/-- Faults that make exactly the source file at path `p` unreadable
(`fopen(p, "rb")` fails); everything else succeeds. -/
def failRead (p : String) : Faults where
  opendirFails := fun _ => false
  mkdir := fun _ => .ok
  statFails := fun _ => false
  fopenReadFails := fun q => decide (q = p)
  fopenWriteFails := fun _ => false
  fwriteFailsAt := fun _ => none
  chmodFails := fun _ => false

/-- Split a byte list into the successive ≤4096-byte chunks that the
`fread`/`fwrite` loop of `copy_file` moves (`char buffer[4096]`).
`cur` accumulates the current chunk in reverse, `k` counts the space
left in the buffer. -/
def chunksAux : List Nat → List Nat → Nat → List (List Nat)
  | [], cur, _ => if cur = [] then [] else [cur.reverse]
  | b :: rest, cur, k =>
      if k ≤ 1 then (b :: cur).reverse :: chunksAux rest [] 4096
      else chunksAux rest (b :: cur) (k - 1)

/-- The chunks read by successive `fread(buffer, 1, 4096, src_file)` calls. -/
def chunksOf4096 (l : List Nat) : List (List Nat) := chunksAux l [] 4096

/-- The `fread`/`fwrite` loop of `copy_file`: writes chunk after chunk to
the destination; if the `fwrite` of chunk `i` fails the loop `break`s.
Returns the bytes that reached the destination and whether a write
error was logged. -/
def writeLoop (failAt : Option Nat) : Nat → List (List Nat) → List Nat × Bool
  | _, [] => ([], false)
  | i, c :: rest =>
      match failAt with
      | some j =>
          if i = j then ([], true)
          else
            let r := writeLoop failAt (i + 1) rest
            (c ++ r.1, r.2)
      | none =>
          let r := writeLoop failAt (i + 1) rest
          (c ++ r.1, r.2)

/-- State of a destination file after `copy_file`: the bytes written and
the permission bits set on it (`none` when `chmod` was skipped because
`stat(src)` failed, or when `chmod` itself failed). -/
structure DFile where
  content : List Nat
  mode : Option Nat
  deriving DecidableEq, Repr

/-- The function `copy_file(src, dest)` (backup.c lines 236-286).  The source file's
bytes and permission bits are `content` and `mode` (the model's stand-in
for reading the source filesystem).  Returns `none` when the destination
file was never touched (source or destination could not be opened),
otherwise the destination file's final state, plus the error/warning
log lines. -/
def copy_file (f : Faults) (src dest : String) (content : List Nat) (mode : Nat) :
    Option DFile × List LogEvent :=
  if f.fopenReadFails src then
    (none, [.errOpenSrcFile src])
  else if f.fopenWriteFails dest then
    (none, [.errOpenDstFile dest])
  else
    let w := writeLoop (f.fwriteFailsAt dest) 0 (chunksOf4096 content)
    let writeLog := if w.2 then [LogEvent.errWrite src dest] else []
    if f.statFails src then
      (some ⟨w.1, none⟩, writeLog)
    else if f.chmodFails dest then
      (some ⟨w.1, none⟩, writeLog ++ [.warnChmod dest])
    else
      (some ⟨w.1, some mode⟩, writeLog)

-- A source directory tree as enumerated by `readdir`: each entry has a
-- name and is a regular file (with byte content and permission bits), a
-- subdirectory, or an entry of any other type (symlink, device, socket,
-- ...).  The listing may contain `.` and `..` entries, which the copier
-- skips.
mutual
inductive Entry where
  | file (name : String) (content : List Nat) (mode : Nat)
  | dir (name : String) (entries : EntryList)
  | other (name : String)

inductive EntryList where
  | nil
  | cons (head : Entry) (tail : EntryList)
end

/-- The `d_name` field of a directory entry. -/
def Entry.name : Entry → String
  | .file n _ _ => n
  | .dir n _ => n
  | .other n => n

-- A destination tree produced by the copier: only directories and
-- regular files ever appear on the destination side.
mutual
inductive DEntry where
  | file (name : String) (content : List Nat) (mode : Option Nat)
  | dir (name : String) (entries : DEntryList)

inductive DEntryList where
  | nil
  | cons (head : DEntry) (tail : DEntryList)
end

/-- Prepend an optional destination entry (absent when the source entry
was skipped or its copy failed before touching the destination). -/
def consOpt (o : Option DEntry) (l : DEntryList) : DEntryList :=
  match o with
  | none => l
  | some d => .cons d l

/-- The entry to `copy_directory(src, dest)` before the `readdir` loop
(backup.c lines 290-308): `opendir(src)`, then `mkdir(dest, 0755)`
tolerating `EEXIST`.  `some log` means an early `return` with those log
lines (nothing created under `dest` by this call); `none` means the loop
is entered. -/
def dir_prelude (f : Faults) (src dest : String) : Option (List LogEvent) :=
  if f.opendirFails src then some [.errOpenDir src]
  else
    match f.mkdir dest with
    | .err => some [.errCreateDir dest]
    | _ => none

mutual
/-- One iteration of the `readdir` loop of `copy_directory` (backup.c
lines 314-341): skip `.`/`..`, build `src_path`/`dest_path`, `stat` the
entry and dispatch on its type; for subdirectories the body of the
recursive `copy_directory(src_path, dest_path)` call is inlined. -/
def copy_entry (f : Faults) (src dest : String) : Entry → Option DEntry × List LogEvent
  | .file n content mode =>
      if n = "." ∨ n = ".." then (none, [])
      else
        let sp := src ++ "/" ++ n
        let dp := dest ++ "/" ++ n
        if f.statFails sp then (none, [.warnStatFailed sp])
        else
          let r := copy_file f sp dp content mode
          (r.1.map fun df => DEntry.file n df.content df.mode, r.2)
  | .dir n es =>
      if n = "." ∨ n = ".." then (none, [])
      else
        let sp := src ++ "/" ++ n
        let dp := dest ++ "/" ++ n
        if f.statFails sp then (none, [.warnStatFailed sp])
        else
          match dir_prelude f sp dp with
          | some log => (none, log)
          | none =>
              let r := copy_entries f sp dp es
              (some (.dir n r.1), r.2)
  | .other n =>
      if n = "." ∨ n = ".." then (none, [])
      else
        let sp := src ++ "/" ++ n
        if f.statFails sp then (none, [.warnStatFailed sp])
        else (none, [.warnSkippedEntry sp])

/-- The full `readdir` loop: every entry is processed in turn,
independently of the outcome of the previous entries. -/
def copy_entries (f : Faults) (src dest : String) : EntryList → DEntryList × List LogEvent
  | .nil => (.nil, [])
  | .cons e rest =>
      let r := copy_entry f src dest e
      let rs := copy_entries f src dest rest
      (consOpt r.1 rs.1, r.2 ++ rs.2)
end

/-- The function `copy_directory(src, dest)` (backup.c lines 289-346) where `entries`
is the `readdir` listing of `src`.  Returns `none` when the function
returned before entering the loop (source unopenable, or destination
creation failed with other than `EEXIST`), otherwise the list of
destination entries created under `dest`. -/
def copy_directory (f : Faults) (src dest : String) (entries : EntryList) :
    Option DEntryList × List LogEvent :=
  match dir_prelude f src dest with
  | some log => (none, log)
  | none =>
      let r := copy_entries f src dest entries
      (some r.1, r.2)

/- Spec-side mirror of the tree copy: the source tree restricted to
regular files and directories (`.`/`..` and non-regular entries
dropped), file contents kept byte-for-byte and permission bits kept,
except that files whose full source path satisfies `bad` (the unreadable
ones) are dropped.  With `bad = fun _ => false` this is exactly the
spec's "T restricted to regular files and directories".
-/
mutual
def cleanEntryIf (bad : String → Bool) (src : String) : Entry → Option DEntry
  | .file n content mode =>
      if n = "." ∨ n = ".." then none
      else if bad (src ++ "/" ++ n) then none
      else some (.file n content (some mode))
  | .dir n es =>
      if n = "." ∨ n = ".." then none
      else some (.dir n (cleanListIf bad (src ++ "/" ++ n) es))
  | .other _ => none

def cleanListIf (bad : String → Bool) (src : String) : EntryList → DEntryList
  | .nil => .nil
  | .cons e rest => consOpt (cleanEntryIf bad src e) (cleanListIf bad src rest)
end

/-! ## Configuration store (`read_default_backup_dir` / `write_default_backup_dir`) -/

/-- The characters consumed by one `fgets(buf, size, f)` call: at most
`size - 1` characters, stopping after the first newline. -/
def takeLine : Nat → List Char → List Char
  | 0, _ => []
  | _, [] => []
  | n + 1, c :: rest => if c = '\n' then [c] else c :: takeLine n rest

/-- A call `fgets(buf, size, f)` on a file whose whole content is `content`:
returns `none` (NULL) when the file is empty, otherwise the first line
read (up to `size - 1` characters, newline included). -/
def fgets_model (size : Nat) (content : List Char) : Option (List Char) :=
  match content with
  | [] => none
  | _ => some (takeLine (size - 1) content)

/-- The statement `buf[strcspn(buf, "\n")] = 0`: truncate at the first newline. -/
def strip_at_newline : List Char → List Char
  | [] => []
  | c :: rest => if c = '\n' then [] else c :: strip_at_newline rest

/-- The function `read_default_backup_dir` (backup.c lines 127-154) as a function of
the config file's content (`none` = the file is absent or `fopen`
failed).  Returns the resolved default target directory and whether the
fallback WARNING was logged. -/
def read_default_backup_dir (config : Option String) : String × Bool :=
  match config with
  | none => (DEFAULT_TARGET_DIR, true)
  | some content =>
      match fgets_model PATH_MAX content.data with
      | none => (DEFAULT_TARGET_DIR, true)
      | some line => (String.mk (strip_at_newline line), false)

/-- The function `write_default_backup_dir` (backup.c lines 183-206): overwrite the
config file with the raw path text (no trailing newline); on `fopen`
failure the old content is left in place (logged, non-fatal).  Returns
the config file content after the call and whether the write failed. -/
def write_default_backup_dir (writeFails : Bool) (oldConfig : Option String)
    (newDir : String) : Option String × Bool :=
  if writeFails then (oldConfig, true) else (some newDir, false)

/-! ## Timestamped directory naming (`create_timestamped_dir`) -/

/-- The decoded local time `struct tm` as filled by `localtime_r`
(with `tm_year`/`tm_mon` already translated to calendar year and
1-based month). -/
structure Tm where
  year : Nat
  mon : Nat
  day : Nat
  hour : Nat
  min : Nat
  sec : Nat
  deriving DecidableEq, Repr

/-- Two-digit zero padding, as `%m`/`%d`/`%H`/`%M`/`%S` render. -/
def pad2 (n : Nat) : String := if n < 10 then "0" ++ toString n else toString n

/-- The text produced by the format string
`"Backup %Y-%m-%d %H-%M-%S"` (`%Y` renders the full year in decimal). -/
def timestamp_str (t : Tm) : String :=
  "Backup " ++ toString t.year ++ "-" ++ pad2 t.mon ++ "-" ++ pad2 t.day ++ " "
    ++ pad2 t.hour ++ "-" ++ pad2 t.min ++ "-" ++ pad2 t.sec

/-- The call `strftime(timestamp, 30, "Backup %Y-%m-%d %H-%M-%S", &tm_info)`:
returns 0 (modelled `none`) when the formatted text plus its NUL
terminator does not fit the 30-byte buffer. -/
def strftime_timestamp (t : Tm) : Option String :=
  if (timestamp_str t).length + 1 ≤ 30 then some (timestamp_str t) else none

/-- The fatal exits of `create_timestamped_dir` (each is an
`exit(EXIT_FAILURE)` in the C code). -/
inductive FatalError where
  | localtimeFailed
  | formatFailed
  | pathTooLong
  deriving DecidableEq, Repr

/-- The function `create_timestamped_dir(base_path, timestamped_dir)` (backup.c lines
209-233).  `t = none` models `localtime_r` failing.  `Except.error`
models `exit(EXIT_FAILURE)`; on success the produced path is
`base ++ "/" ++ timestamp` (`snprintf "%s/%s"`), rejected when its
length reaches `PATH_MAX`. -/
def create_timestamped_dir (base : String) (t : Option Tm) : Except FatalError String :=
  match t with
  | none => .error .localtimeFailed
  | some tm =>
      match strftime_timestamp tm with
      | none => .error .formatFailed
      | some ts =>
          if (base ++ "/" ++ ts).length ≥ PATH_MAX then .error .pathTooLong
          else .ok (base ++ "/" ++ ts)

/-! ## `main` (backup.c lines 37-123) -/

/-- The parts of the world `main` interacts with. -/
structure Env where
  /-- Result of `realpath(optarg, target_dir)`: `none` = resolution failed. -/
  realpath : String → Option String
  /-- Content of `<home>/.config/backup_tool.conf` (`none` = absent/unreadable). -/
  config : Option String
  /-- Whether `fopen(config, "w")` fails inside `write_default_backup_dir`. -/
  configWriteFails : Bool
  /-- Result of `stat(source_dir, &src_stat)`: `none` = stat failed, otherwise `S_ISDIR`. -/
  srcIsDir : String → Option Bool
  /-- The decoded current local time (`none` = `localtime_r` failed). -/
  tm : Option Tm
  /-- Result of `mkdir(backup_dir, 0755)` at backup.c line 105. -/
  mkdirBackup : MkdirResult
  /-- Fault oracle for the tree copy. -/
  faults : Faults
  /-- The `readdir` listing of the source directory. -/
  sourceTree : EntryList

/-- Observable outcome of one `main` invocation. -/
structure MainResult where
  exitCode : Nat
  /-- Config file content after the run. -/
  config : Option String
  /-- Lines printed to stdout. -/
  stdoutLines : List String
  /-- Whether the usage message was printed. -/
  usageShown : Bool
  /-- Path of the timestamped backup directory `main` created (`none` if
  the run never created one). -/
  backupDirCreated : Option String
  /-- Holds `none` when `copy_directory` was never invoked, otherwise its result. -/
  copyRun : Option (Option DEntryList × List LogEvent)

/-- The function `main(argc, argv)` (backup.c lines 37-123).  `topt` is the argument
of `-t` when present, `srcArg` the positional `source_dir` when present
(the `getopt` loop is modelled as already parsed). -/
def runMain (env : Env) (topt : Option String) (srcArg : Option String) : MainResult :=
  match topt with
  | some optarg =>
      match env.realpath optarg with
      | none =>
          -- `realpath` failed: perror + exit(EXIT_FAILURE), config untouched
          ⟨1, env.config, [], false, none, none⟩
      | some target =>
          -- update_default: persist, confirm, return 0; no backup happens
          let w := write_default_backup_dir env.configWriteFails env.config target
          ⟨0, w.1, ["Updated default backup directory to: " ++ target], false, none, none⟩
  | none =>
      let target := (read_default_backup_dir env.config).1
      match srcArg with
      | none =>
          -- missing positional source_dir: usage + exit(EXIT_FAILURE)
          ⟨1, env.config, [], true, none, none⟩
      | some source =>
          match env.srcIsDir source with
          | none => ⟨1, env.config, [], false, none, none⟩
          | some false => ⟨1, env.config, [], false, none, none⟩
          | some true =>
              match create_timestamped_dir target env.tm with
              | .error _ => ⟨1, env.config, [], false, none, none⟩
              | .ok backupDir =>
                  match env.mkdirBackup with
                  | .ok =>
                      let r := copy_directory env.faults source backupDir env.sourceTree
                      ⟨0, env.config,
                        ["Backing up " ++ source ++ " to " ++ backupDir,
                         "Backup completed successfully!"],
                        false, some backupDir, some r⟩
                  | _ =>
                      -- any mkdir failure here (EEXIST included) is fatal
                      ⟨1, env.config, [], false, none, none⟩

/-! ## Concrete sample values for the closed instantiations -/

/-- A small sample source tree: a regular file, a subdirectory with a
file, a symlink-like entry, and a `.` entry. -/
def demoTree : EntryList :=
  .cons (.file "a" [1, 2, 3] 420)
    (.cons (.dir "sub" (.cons (.file "b" [7] 493) .nil))
      (.cons (.other "link")
        (.cons (.file "." [9] 511) .nil)))

/-- A sample decoded local time: 2026-10-11 12:34:56. -/
def demoTm : Tm := ⟨2026, 10, 11, 12, 34, 56⟩

/-- Faults where `opendir` fails exactly on `"/s"`. -/
def demoFaultsOpendir : Faults :=
  { noFaults with opendirFails := fun s => decide (s = "/s") }

/-- Faults where `mkdir` fails (non-`EEXIST`) exactly on `"/d"`. -/
def demoFaultsMkdirErr : Faults :=
  { noFaults with mkdir := fun d => if d = "/d" then .err else .ok }

/-- Faults where `mkdir` reports `EEXIST` exactly on `"/d"`. -/
def demoFaultsMkdirEexist : Faults :=
  { noFaults with mkdir := fun d => if d = "/d" then .eexist else .ok }

/-- Faults where `stat` fails exactly on `"/s/a"`. -/
def demoFaultsStat : Faults :=
  { noFaults with statFails := fun s => decide (s = "/s/a") }

/-- Faults where `fopen(·, "wb")` fails exactly on `"/d/a"`. -/
def demoFaultsWOpen : Faults :=
  { noFaults with fopenWriteFails := fun d => decide (d = "/d/a") }

/-- Faults where `mkdir` fails (non-`EEXIST`) exactly on `"/d/sub"`. -/
def demoFaultsMkdirSub : Faults :=
  { noFaults with mkdir := fun d => if d = "/d/sub" then .err else .ok }

/-- Faults where the first `fwrite` to `"/d/a"` fails. -/
def demoFaultsWrite : Faults :=
  { noFaults with fwriteFailsAt := fun d => if d = "/d/a" then some 0 else none }

/-- Faults where `chmod` fails exactly on `"/d/a"`. -/
def demoFaultsChmod : Faults :=
  { noFaults with chmodFails := fun d => decide (d = "/d/a") }

/-- An environment for a plain run whose timestamped backup directory
already exists: `mkdir(backup_dir)` fails with `EEXIST`. -/
def envCollision : Env where
  realpath := fun _ => none
  config := none
  configWriteFails := false
  srcIsDir := fun s => if s = "/src" then some true else none
  tm := some demoTm
  mkdirBackup := .eexist
  faults := noFaults
  sourceTree := demoTree

/-- A healthy environment: config stores `/mnt/disk`, `realpath`
resolves `/mnt/disk` to itself, the source `/src` is a directory,
every system call succeeds. -/
def envGood : Env where
  realpath := fun s => if s = "/mnt/disk" then some "/mnt/disk" else none
  config := some "/mnt/disk"
  configWriteFails := false
  srcIsDir := fun s => if s = "/src" then some true else none
  tm := some demoTm
  mkdirBackup := .ok
  faults := noFaults
  sourceTree := demoTree

/-- A base path of `PATH_MAX` characters, so any timestamped path under
it overflows the buffer. -/
def longBase : String := String.mk (List.replicate PATH_MAX 'a')

/-- A decoded time whose year needs nine digits, overflowing the 30-byte
`strftime` buffer. -/
def demoTmHuge : Tm := ⟨100000000, 1, 2, 3, 4, 5⟩

/-! ## Helper lemmas -/

theorem chunksAux_flatten (l : List Nat) :
    ∀ cur k, (chunksAux l cur k).flatten = cur.reverse ++ l := by
  induction l with
  | nil =>
      intro cur k
      by_cases h : cur = [] <;> simp [chunksAux, h]
  | cons b rest ih =>
      intro cur k
      by_cases h : k ≤ 1 <;>
        simp [chunksAux, h, ih]

/-- Reassembling the 4096-byte chunks gives back the original bytes. -/
theorem chunksOf4096_flatten (l : List Nat) : (chunksOf4096 l).flatten = l := by
  simpa using chunksAux_flatten l [] 4096

/-- With no write fault the copy loop transfers every chunk and reports
no error. -/
theorem writeLoop_none (i : Nat) (cs : List (List Nat)) :
    writeLoop none i cs = (cs.flatten, false) := by
  induction cs generalizing i with
  | nil => rfl
  | cons c rest ih => simp [writeLoop, ih]

/-- A nonempty byte list yields at least one chunk. -/
theorem chunksAux_ne_nil (l : List Nat) :
    ∀ cur k, cur ≠ [] ∨ l ≠ [] → chunksAux l cur k ≠ [] := by
  induction l with
  | nil =>
      intro cur k h
      have hc : cur ≠ [] := h.resolve_right fun hx => hx rfl
      simp [chunksAux, hc]
  | cons b rest ih =>
      intro cur k h
      by_cases hk : k ≤ 1
      · simp [chunksAux, hk]
      · simp only [chunksAux, if_neg hk]
        exact ih (b :: cur) (k - 1) (Or.inl (List.cons_ne_nil b cur))

/-- When the very first `fwrite` fails, the loop `break`s at once:
nothing reaches the destination and the write error is reported. -/
theorem writeLoop_fail0 (cs : List (List Nat)) (h : cs ≠ []) :
    writeLoop (some 0) 0 cs = ([], true) := by
  cases cs with
  | nil => exact absurd rfl h
  | cons c rest => rfl

/-- Running `copy_file` under faults that spare both paths: the destination gets
the source's bytes and permission bits, nothing is logged. -/
theorem copy_file_ok (f : Faults) (s d : String) (content : List Nat) (mode : Nat)
    (h1 : f.fopenReadFails s = false) (h2 : f.fopenWriteFails d = false)
    (h3 : f.fwriteFailsAt d = none) (h4 : f.statFails s = false)
    (h5 : f.chmodFails d = false) :
    copy_file f s d content mode = (some ⟨content, some mode⟩, []) := by
  simp [copy_file, h1, h2, h3, h4, h5, writeLoop_none, chunksOf4096_flatten]

/-- Faults that can only make `fopen(·, "rb")` fail: every other system
call the tree copier issues succeeds. -/
structure ReadOnlyFaults (f : Faults) : Prop where
  opendir : ∀ s, f.opendirFails s = false
  mkdirOk : ∀ s, f.mkdir s ≠ .err
  stat : ∀ s, f.statFails s = false
  fopenW : ∀ s, f.fopenWriteFails s = false
  fwrite : ∀ s, f.fwriteFailsAt s = none
  chmod : ∀ s, f.chmodFails s = false

theorem noFaults_readOnly : ReadOnlyFaults noFaults := by
  constructor <;> intro s <;> simp [noFaults]

theorem failRead_readOnly (p : String) : ReadOnlyFaults (failRead p) := by
  constructor <;> intro s <;> simp [failRead]

theorem dir_prelude_none (f : Faults) (h : ReadOnlyFaults f) (s d : String) :
    dir_prelude f s d = none := by
  unfold dir_prelude
  cases hm : f.mkdir d with
  | ok => simp [h.opendir s, hm]
  | eexist => simp [h.opendir s, hm]
  | err => exact absurd hm (h.mkdirOk d)

mutual
/-- Under read-only faults, one loop iteration produces exactly the
cleaned entry: subdirectories recurse, readable regular files are copied
byte-for-byte with their permission bits, unreadable files and
non-regular entries are dropped. -/
theorem copy_entry_if (f : Faults) (h : ReadOnlyFaults f) (src dest : String)
    (e : Entry) : (copy_entry f src dest e).1 = cleanEntryIf f.fopenReadFails src e :=
  match e with
  | .file n content mode => by
      by_cases hd : n = "." ∨ n = ".."
      · simp [copy_entry, cleanEntryIf, hd]
      · by_cases hb : f.fopenReadFails (src ++ "/" ++ n) = true
        · simp [copy_entry, cleanEntryIf, hd, hb, h.stat, copy_file]
        · simp only [Bool.not_eq_true] at hb
          simp [copy_entry, cleanEntryIf, hd, hb, h.stat,
            copy_file_ok f _ _ content mode hb (h.fopenW _) (h.fwrite _)
              (h.stat _) (h.chmod _)]
  | .dir n es => by
      by_cases hd : n = "." ∨ n = ".."
      · simp [copy_entry, cleanEntryIf, hd]
      · simp [copy_entry, cleanEntryIf, hd, h.stat, dir_prelude_none f h,
          copy_entries_if f h (src ++ "/" ++ n) (dest ++ "/" ++ n) es]
  | .other n => by
      by_cases hd : n = "." ∨ n = ".."
      · simp [copy_entry, cleanEntryIf, hd]
      · simp [copy_entry, cleanEntryIf, hd, h.stat]

/-- Under read-only faults, the loop over a listing produces exactly the
cleaned listing. -/
theorem copy_entries_if (f : Faults) (h : ReadOnlyFaults f) (src dest : String)
    (es : EntryList) : (copy_entries f src dest es).1 = cleanListIf f.fopenReadFails src es :=
  match es with
  | .nil => rfl
  | .cons e rest => by
      simp [copy_entries, cleanListIf, copy_entry_if f h src dest e,
        copy_entries_if f h src dest rest]
end

/-- Under read-only faults, `copy_directory` succeeds and produces the
cleaned listing. -/
theorem copy_directory_if (f : Faults) (h : ReadOnlyFaults f) (src dest : String)
    (es : EntryList) :
    (copy_directory f src dest es).1 = some (cleanListIf f.fopenReadFails src es) := by
  simp [copy_directory, dir_prelude_none f h, copy_entries_if f h src dest es]

theorem takeLine_of_no_newline (l : List Char) :
    ∀ n, '\n' ∉ l → l.length ≤ n → takeLine n l = l := by
  induction l with
  | nil => intro n _ _; cases n <;> rfl
  | cons c rest ih =>
      intro n h hn
      rw [List.mem_cons] at h
      push_neg at h
      have hc : ¬c = '\n' := fun e => h.1 e.symm
      cases n with
      | zero => simp at hn
      | succ m =>
          simp only [List.length_cons, Nat.add_le_add_iff_right] at hn
          simp [takeLine, hc, ih m h.2 hn]

theorem strip_of_no_newline (l : List Char) (h : '\n' ∉ l) :
    strip_at_newline l = l := by
  induction l with
  | nil => rfl
  | cons c rest ih =>
      rw [List.mem_cons] at h
      push_neg at h
      have hc : ¬c = '\n' := fun e => h.1 e.symm
      simp [strip_at_newline, hc, ih h.2]

theorem fgets_model_ne_nil (size : Nat) (l : List Char) (h : l ≠ []) :
    fgets_model size l = some (takeLine (size - 1) l) := by
  cases l with
  | nil => exact absurd rfl h
  | cons c rest => rfl

/-- A non-empty config line with no newline and fitting the buffer is
read back verbatim, with no fallback warning. -/
theorem read_default_of_content (content : String) (h1 : content ≠ "")
    (h2 : '\n' ∉ content.data) (h3 : content.length < PATH_MAX) :
    read_default_backup_dir (some content) = (content, false) := by
  have hd : content.data ≠ [] := by
    intro e
    exact h1 (String.ext (by simpa using e))
  have hlen : content.data.length ≤ PATH_MAX - 1 := by
    have : content.length = content.data.length := rfl
    omega
  rw [read_default_backup_dir, fgets_model_ne_nil _ _ hd,
    takeLine_of_no_newline _ _ h2 hlen]
  simp only
  rw [strip_of_no_newline _ h2]

/-! ## The claims -/

/-- C1: every entry of the source directory encountered by
`copy_directory` is dispatched by type: with all system calls
succeeding, the destination tree is exactly the source tree restricted
to directories (recursed into) and regular files (contents copied
byte-for-byte, POSIX permission bits duplicated), everything else
dropped; and a non-regular, non-directory entry is skipped with a
warning and no error (the iteration result for it is `none` with a
single WARNING line). -/
theorem c1_entry_dispatch (src dest : String) (es : EntryList) :
    (copy_directory noFaults src dest es).1 =
        some (cleanListIf (fun _ => false) src es)
    ∧ ∀ n, ¬(n = "." ∨ n = "..") →
        copy_entry noFaults src dest (.other n) =
          (none, [.warnSkippedEntry (src ++ "/" ++ n)]) := by
  constructor
  · exact copy_directory_if noFaults noFaults_readOnly src dest es
  · intro n hn
    simp [copy_entry, hn, noFaults]

/-- C1 witness: the dispatch evaluated on the sample tree. -/
theorem c1_entry_dispatch_witness :
    (copy_directory noFaults "/s" "/d" demoTree).1 =
        some (cleanListIf (fun _ => false) "/s" demoTree)
    ∧ copy_entry noFaults "/s" "/d" (.other "link") =
        (none, [.warnSkippedEntry "/s/link"]) :=
  ⟨(c1_entry_dispatch "/s" "/d" demoTree).1,
   (c1_entry_dispatch "/s" "/d" demoTree).2 "link" (by decide)⟩

/-- C2: every per-entry failure inside `copy_directory` is logged and
the loop continues with the next entry, under an arbitrary fault
oracle: (1) each iteration's outcome — whatever the faults — is simply
prepended to the processing of the remaining entries, so no entry
failure aborts the tree copy; the five per-entry failure kinds give (2)
cannot stat: WARNING, entry skipped; (3) cannot open source: ERROR,
file skipped; (4) cannot create destination file / (5) cannot create
destination subdirectory: ERROR, entry skipped; (6) write failure:
ERROR, partial file left; (7) permission-set failure: WARNING, file
copied without its mode; moreover (8) with exactly one source file
unreadable the rest of the tree still copies in full; but (9) a
top-level source directory that cannot be opened, or (10) a top-level
destination that cannot be created, makes `copy_directory` return at
once with only that error logged and nothing copied. -/
theorem c2_per_entry_failures (p src dest : String) (es : EntryList) (f : Faults) :
    (∀ e rest, copy_entries f src dest (.cons e rest) =
        (consOpt (copy_entry f src dest e).1 (copy_entries f src dest rest).1,
         (copy_entry f src dest e).2 ++ (copy_entries f src dest rest).2))
    ∧ (∀ e, ¬(e.name = "." ∨ e.name = "..") →
        f.statFails (src ++ "/" ++ e.name) = true →
        copy_entry f src dest e = (none, [.warnStatFailed (src ++ "/" ++ e.name)]))
    ∧ (∀ n content mode, ¬(n = "." ∨ n = "..") →
        f.statFails (src ++ "/" ++ n) = false →
        f.fopenReadFails (src ++ "/" ++ n) = true →
        copy_entry f src dest (.file n content mode) =
          (none, [.errOpenSrcFile (src ++ "/" ++ n)]))
    ∧ (∀ n content mode, ¬(n = "." ∨ n = "..") →
        f.statFails (src ++ "/" ++ n) = false →
        f.fopenReadFails (src ++ "/" ++ n) = false →
        f.fopenWriteFails (dest ++ "/" ++ n) = true →
        copy_entry f src dest (.file n content mode) =
          (none, [.errOpenDstFile (dest ++ "/" ++ n)]))
    ∧ (∀ n es', ¬(n = "." ∨ n = "..") →
        f.statFails (src ++ "/" ++ n) = false →
        f.opendirFails (src ++ "/" ++ n) = false →
        f.mkdir (dest ++ "/" ++ n) = .err →
        copy_entry f src dest (.dir n es') =
          (none, [.errCreateDir (dest ++ "/" ++ n)]))
    ∧ (∀ n content mode, ¬(n = "." ∨ n = "..") → content ≠ [] →
        f.statFails (src ++ "/" ++ n) = false →
        f.fopenReadFails (src ++ "/" ++ n) = false →
        f.fopenWriteFails (dest ++ "/" ++ n) = false →
        f.fwriteFailsAt (dest ++ "/" ++ n) = some 0 →
        f.chmodFails (dest ++ "/" ++ n) = false →
        copy_entry f src dest (.file n content mode) =
          (some (.file n [] (some mode)),
           [.errWrite (src ++ "/" ++ n) (dest ++ "/" ++ n)]))
    ∧ (∀ n content mode, ¬(n = "." ∨ n = "..") →
        f.statFails (src ++ "/" ++ n) = false →
        f.fopenReadFails (src ++ "/" ++ n) = false →
        f.fopenWriteFails (dest ++ "/" ++ n) = false →
        f.fwriteFailsAt (dest ++ "/" ++ n) = none →
        f.chmodFails (dest ++ "/" ++ n) = true →
        copy_entry f src dest (.file n content mode) =
          (some (.file n content none), [.warnChmod (dest ++ "/" ++ n)]))
    ∧ (copy_directory (failRead p) src dest es).1 =
        some (cleanListIf (fun q => decide (q = p)) src es)
    ∧ (f.opendirFails src = true →
        copy_directory f src dest es = (none, [.errOpenDir src]))
    ∧ (f.opendirFails src = false → f.mkdir dest = .err →
        copy_directory f src dest es = (none, [.errCreateDir dest])) := by
  refine ⟨fun e rest => rfl, ?_, ?_, ?_, ?_, ?_, ?_,
    copy_directory_if (failRead p) (failRead_readOnly p) src dest es, ?_, ?_⟩
  · intro e hd hs
    cases e <;> (simp only [Entry.name] at hd hs; simp [copy_entry, Entry.name, hd, hs])
  · intro n content mode hd hs hr
    simp [copy_entry, hd, hs, copy_file, hr]
  · intro n content mode hd hs hr hw
    simp [copy_entry, hd, hs, copy_file, hr, hw]
  · intro n es' hd hs ho hm
    simp [copy_entry, hd, hs, dir_prelude, ho, hm]
  · intro n content mode hd hne hs hr hw hwr hch
    have hcne : chunksOf4096 content ≠ [] :=
      chunksAux_ne_nil content [] 4096 (Or.inr hne)
    simp [copy_entry, hd, hs, copy_file, hr, hw, hwr, writeLoop_fail0 _ hcne, hch]
  · intro n content mode hd hs hr hw hwn hch
    simp [copy_entry, hd, hs, copy_file, hr, hw, hwn, writeLoop_none,
      chunksOf4096_flatten, hch]
  · intro h
    simp [copy_directory, dir_prelude, h]
  · intro h1 h2
    simp [copy_directory, dir_prelude, h1, h2]

/-- C2 witness: one iteration of the loop, each of the five per-entry
failure kinds, the one-unreadable-file tree, and the two top-level
failure modes, all evaluated on concrete inputs. -/
theorem c2_per_entry_failures_witness :
    copy_entries noFaults "/s" "/d" (.cons (.file "a" [1] 420) .nil) =
        (consOpt (copy_entry noFaults "/s" "/d" (.file "a" [1] 420)).1
          (copy_entries noFaults "/s" "/d" .nil).1,
         (copy_entry noFaults "/s" "/d" (.file "a" [1] 420)).2 ++
          (copy_entries noFaults "/s" "/d" .nil).2)
    ∧ copy_entry demoFaultsStat "/s" "/d" (.file "a" [1] 420) =
        (none, [.warnStatFailed "/s/a"])
    ∧ copy_entry (failRead "/s/a") "/s" "/d" (.file "a" [1] 420) =
        (none, [.errOpenSrcFile "/s/a"])
    ∧ copy_entry demoFaultsWOpen "/s" "/d" (.file "a" [1] 420) =
        (none, [.errOpenDstFile "/d/a"])
    ∧ copy_entry demoFaultsMkdirSub "/s" "/d" (.dir "sub" .nil) =
        (none, [.errCreateDir "/d/sub"])
    ∧ copy_entry demoFaultsWrite "/s" "/d" (.file "a" [1] 420) =
        (some (.file "a" [] (some 420)), [.errWrite "/s/a" "/d/a"])
    ∧ copy_entry demoFaultsChmod "/s" "/d" (.file "a" [1] 420) =
        (some (.file "a" [1] none), [.warnChmod "/d/a"])
    ∧ (copy_directory (failRead "/s/a") "/s" "/d" demoTree).1 =
        some (cleanListIf (fun q => decide (q = "/s/a")) "/s" demoTree)
    ∧ copy_directory demoFaultsOpendir "/s" "/d" demoTree = (none, [.errOpenDir "/s"])
    ∧ copy_directory demoFaultsMkdirErr "/s" "/d" demoTree =
        (none, [.errCreateDir "/d"]) :=
  ⟨(c2_per_entry_failures "/s/a" "/s" "/d" demoTree noFaults).1
      (.file "a" [1] 420) .nil,
   (c2_per_entry_failures "/s/a" "/s" "/d" demoTree demoFaultsStat).2.1
      (.file "a" [1] 420) (by decide) (by decide),
   (c2_per_entry_failures "/s/a" "/s" "/d" demoTree (failRead "/s/a")).2.2.1
      "a" [1] 420 (by decide) (by decide) (by decide),
   (c2_per_entry_failures "/s/a" "/s" "/d" demoTree demoFaultsWOpen).2.2.2.1
      "a" [1] 420 (by decide) (by decide) (by decide) (by decide),
   (c2_per_entry_failures "/s/a" "/s" "/d" demoTree demoFaultsMkdirSub).2.2.2.2.1
      "sub" .nil (by decide) (by decide) (by decide) (by decide),
   (c2_per_entry_failures "/s/a" "/s" "/d" demoTree demoFaultsWrite).2.2.2.2.2.1
      "a" [1] 420 (by decide) (by decide) (by decide) (by decide) (by decide)
      (by decide) (by decide),
   (c2_per_entry_failures "/s/a" "/s" "/d" demoTree demoFaultsChmod).2.2.2.2.2.2.1
      "a" [1] 420 (by decide) (by decide) (by decide) (by decide) (by decide)
      (by decide),
   (c2_per_entry_failures "/s/a" "/s" "/d" demoTree noFaults).2.2.2.2.2.2.2.1,
   (c2_per_entry_failures "/s/a" "/s" "/d" demoTree demoFaultsOpendir).2.2.2.2.2.2.2.2.1
      (by decide),
   (c2_per_entry_failures "/s/a" "/s" "/d" demoTree demoFaultsMkdirErr).2.2.2.2.2.2.2.2.2
      (by decide) (by decide)⟩

/-- C3 counterexample: in an otherwise healthy plain run whose
timestamped destination directory already exists (`mkdir(backup_dir)`
fails with `EEXIST`, as when two runs fall in the same second), `main`
exits non-zero and never invokes the tree copy — the run does not
proceed and nothing merges, contrary to the claim. -/
theorem c3_collision_cex :
    (runMain envCollision none (some "/src")).exitCode = 1
    ∧ (runMain envCollision none (some "/src")).copyRun = none :=
  ⟨rfl, rfl⟩

/-- C3 (amended): a pre-existing timestamped destination directory is a
fatal error — `main`'s `mkdir` fails with `EEXIST` and the run exits
non-zero without copying anything; only inside the tree copy are
pre-existing destination directories tolerated and merged into
(`copy_directory` treats `EEXIST` as success). -/
theorem c3_collision_amended (env : Env) (source b : String) (f : Faults)
    (s d : String) (es : EntryList)
    (h1 : env.srcIsDir source = some true)
    (h2 : create_timestamped_dir (read_default_backup_dir env.config).1 env.tm =
      Except.ok b)
    (h3 : env.mkdirBackup = .eexist) :
    ((runMain env none (some source)).exitCode = 1
      ∧ (runMain env none (some source)).copyRun = none)
    ∧ (f.opendirFails s = false → f.mkdir d = .eexist →
        (copy_directory f s d es).1 = some (copy_entries f s d es).1) := by
  constructor
  · constructor <;> simp [runMain, h1, h2, h3]
  · intro g1 g2
    simp [copy_directory, dir_prelude, g1, g2]

/-- C3 witness: the amended statement evaluated on the collision
environment and on a subdirectory-level `EEXIST`. -/
theorem c3_collision_witness :
    ((runMain envCollision none (some "/src")).exitCode = 1
      ∧ (runMain envCollision none (some "/src")).copyRun = none)
    ∧ (copy_directory demoFaultsMkdirEexist "/s" "/d" demoTree).1 =
        some (copy_entries demoFaultsMkdirEexist "/s" "/d" demoTree).1 :=
  ⟨(c3_collision_amended envCollision "/src"
      "/media/pi/piBackup/Backup 2026-10-11 12-34-56" demoFaultsMkdirEexist
      "/s" "/d" demoTree rfl rfl rfl).1,
   (c3_collision_amended envCollision "/src"
      "/media/pi/piBackup/Backup 2026-10-11 12-34-56" demoFaultsMkdirEexist
      "/s" "/d" demoTree rfl rfl rfl).2 (by decide) (by decide)⟩

/-- C4 counterexample: the write-then-read round trip fails for a path
containing a newline — `write_default_backup_dir` stores it raw, but
`read_default_backup_dir`'s `fgets`/`strcspn` truncate at the first
newline, so the path read back differs from the path stored. -/
theorem c4_roundtrip_cex :
    (read_default_backup_dir (write_default_backup_dir false none "/a\nb").1).1
      ≠ "/a\nb" := by
  decide

/-- C4 (amended): for every valid directory path that is non-empty,
contains no newline and is shorter than `PATH_MAX`, a `-t <validdir>`
invocation followed by a plain invocation uses the canonicalized path as
the base read back from the config file, and the write-then-read round
trip on the config store is the identity. -/
theorem c4_roundtrip_amended (env : Env) (v canon : String) (old : Option String)
    (p : String)
    (hc : canon ≠ "") (hcn : '\n' ∉ canon.data) (hcl : canon.length < PATH_MAX)
    (hr : env.realpath v = some canon) (hw : env.configWriteFails = false)
    (h1 : p ≠ "") (h2 : '\n' ∉ p.data) (h3 : p.length < PATH_MAX) :
    (read_default_backup_dir (runMain env (some v) none).config).1 = canon
    ∧ read_default_backup_dir (write_default_backup_dir false old p).1 = (p, false) := by
  constructor
  · simp [runMain, hr, write_default_backup_dir, hw,
      read_default_of_content canon hc hcn hcl]
  · simpa [write_default_backup_dir] using read_default_of_content p h1 h2 h3

/-- C4 witness: the amended round trip evaluated on concrete paths. -/
theorem c4_roundtrip_witness :
    (read_default_backup_dir (runMain envGood (some "/mnt/disk") none).config).1 =
        "/mnt/disk"
    ∧ read_default_backup_dir (write_default_backup_dir false none "/data").1 =
        ("/data", false) :=
  c4_roundtrip_amended envGood "/mnt/disk" "/mnt/disk" none "/data"
    (by decide) (by decide) (by decide) (by decide) (by decide)
    (by decide) (by decide) (by decide)

/-- C5: `read_default_backup_dir` falls back to the built-in default
`/media/pi/piBackup` with a WARNING when the config file is absent or
unreadable (non-fatally — it returns instead of exiting), and otherwise
returns the stored single-line path verbatim. -/
theorem c5_read_default (cfg : Option String) (content : String) :
    (cfg = none → read_default_backup_dir cfg = (DEFAULT_TARGET_DIR, true))
    ∧ (content ≠ "" → '\n' ∉ content.data → content.length < PATH_MAX →
        read_default_backup_dir (some content) = (content, false)) := by
  constructor
  · intro h
    subst h
    rfl
  · exact read_default_of_content content

/-- C5 witness: both branches evaluated. -/
theorem c5_read_default_witness :
    read_default_backup_dir none = (DEFAULT_TARGET_DIR, true)
    ∧ read_default_backup_dir (some "/mnt/x") = ("/mnt/x", false) :=
  ⟨(c5_read_default none "/mnt/x").1 rfl,
   (c5_read_default none "/mnt/x").2 (by decide) (by decide) (by decide)⟩

/-- C6: `create_timestamped_dir` deterministically produces
`base/Backup YYYY-MM-DD HH-MM-SS` from the given local time, and exits
the process non-zero (`Except.error`) when the composed path reaches
`PATH_MAX` or when `strftime` cannot fit the timestamp into its
30-byte buffer. -/
theorem c6_create_timestamped (base : String) (t : Tm) :
    ((timestamp_str t).length + 1 ≤ 30 →
      (base ++ "/" ++ timestamp_str t).length < PATH_MAX →
        create_timestamped_dir base (some t) =
          .ok (base ++ "/" ++ timestamp_str t))
    ∧ ((timestamp_str t).length + 1 ≤ 30 →
      (base ++ "/" ++ timestamp_str t).length ≥ PATH_MAX →
        create_timestamped_dir base (some t) = .error .pathTooLong)
    ∧ ((timestamp_str t).length + 1 > 30 →
        create_timestamped_dir base (some t) = .error .formatFailed) := by
  refine ⟨?_, ?_, ?_⟩
  · intro h1 h2
    have hs : strftime_timestamp t = some (timestamp_str t) :=
      by rw [strftime_timestamp, if_pos h1]
    simp only [create_timestamped_dir, hs]
    exact if_neg (Nat.not_le.mpr h2)
  · intro h1 h2
    have hs : strftime_timestamp t = some (timestamp_str t) :=
      by rw [strftime_timestamp, if_pos h1]
    simp only [create_timestamped_dir, hs]
    exact if_pos h2
  · intro h1
    have hs : strftime_timestamp t = none :=
      by rw [strftime_timestamp, if_neg (Nat.not_le.mpr h1)]
    simp only [create_timestamped_dir, hs]

/-- C6 witness: the produced path on a sample time, the `PATH_MAX`
overflow exit, and the `strftime` overflow exit, all evaluated. -/
theorem c6_create_timestamped_witness :
    create_timestamped_dir "/b" (some demoTm) =
        .ok "/b/Backup 2026-10-11 12-34-56"
    ∧ create_timestamped_dir longBase (some demoTm) = .error .pathTooLong
    ∧ create_timestamped_dir "/b" (some demoTmHuge) = .error .formatFailed :=
  ⟨(c6_create_timestamped "/b" demoTm).1 (by decide) (by decide),
   by
      have hlb : longBase.length = PATH_MAX := by
        rw [show longBase.length = (List.replicate PATH_MAX 'a').length from rfl,
          List.length_replicate]
      refine (c6_create_timestamped longBase demoTm).2.1 (by decide) ?_
      rw [String.length_append, String.length_append, hlb]
      omega,
   (c6_create_timestamped "/b" demoTmHuge).2.2 (by decide)⟩

/-- C7: an invocation `-t <nonexistent path>` (the `realpath` call
fails) exits non-zero, leaves the stored default (the config file)
unchanged, and creates and copies nothing. -/
theorem c7_invalid_target (env : Env) (optarg : String) (srcArg : Option String)
    (h : env.realpath optarg = none) :
    (runMain env (some optarg) srcArg).exitCode = 1
    ∧ (runMain env (some optarg) srcArg).config = env.config
    ∧ (runMain env (some optarg) srcArg).backupDirCreated = none
    ∧ (runMain env (some optarg) srcArg).copyRun = none := by
  refine ⟨?_, ?_, ?_, ?_⟩ <;> simp [runMain, h]

/-- C7 witness: a `-t` run with an unresolvable target, evaluated
(`envCollision.realpath` rejects every path). -/
theorem c7_invalid_target_witness :
    (runMain envCollision (some "/no/such/dir") none).exitCode = 1
    ∧ (runMain envCollision (some "/no/such/dir") none).config = envCollision.config
    ∧ (runMain envCollision (some "/no/such/dir") none).backupDirCreated = none
    ∧ (runMain envCollision (some "/no/such/dir") none).copyRun = none :=
  c7_invalid_target envCollision "/no/such/dir" none rfl

/-- C8: an invocation `-t <validdir>` (the `realpath` call succeeds)
persists the canonicalized path as the new default, prints the
confirmation line, exits 0, and performs no backup: no timestamped
directory is created and no file is copied. -/
theorem c8_set_default (env : Env) (optarg canon : String) (srcArg : Option String)
    (h : env.realpath optarg = some canon) (hw : env.configWriteFails = false) :
    (runMain env (some optarg) srcArg).exitCode = 0
    ∧ (runMain env (some optarg) srcArg).config = some canon
    ∧ (runMain env (some optarg) srcArg).stdoutLines =
        ["Updated default backup directory to: " ++ canon]
    ∧ (runMain env (some optarg) srcArg).backupDirCreated = none
    ∧ (runMain env (some optarg) srcArg).copyRun = none := by
  refine ⟨?_, ?_, ?_, ?_, ?_⟩ <;> simp [runMain, h, write_default_backup_dir, hw]

/-- C8 witness: a successful `-t /mnt/disk` run, evaluated. -/
theorem c8_set_default_witness :
    (runMain envGood (some "/mnt/disk") none).exitCode = 0
    ∧ (runMain envGood (some "/mnt/disk") none).config = some "/mnt/disk"
    ∧ (runMain envGood (some "/mnt/disk") none).stdoutLines =
        ["Updated default backup directory to: " ++ "/mnt/disk"]
    ∧ (runMain envGood (some "/mnt/disk") none).backupDirCreated = none
    ∧ (runMain envGood (some "/mnt/disk") none).copyRun = none :=
  c8_set_default envGood "/mnt/disk" "/mnt/disk" none (by decide) rfl

/-- C9: a plain run (no `-t`) with the positional `source_dir` omitted
prints the usage message and exits non-zero before creating any backup
directory or copying anything (and without touching the config file). -/
theorem c9_missing_source (env : Env) :
    (runMain env none none).exitCode = 1
    ∧ (runMain env none none).usageShown = true
    ∧ (runMain env none none).config = env.config
    ∧ (runMain env none none).backupDirCreated = none
    ∧ (runMain env none none).copyRun = none := by
  refine ⟨?_, ?_, ?_, ?_, ?_⟩ <;> simp [runMain]

/-- C10: when `copy_file` cannot open the source file for reading it
returns at once — the destination is reported untouched (`none`) with
only the open error logged; conversely the destination is ever touched
only when the source open succeeded. -/
theorem c10_no_dest_touch (f : Faults) (src dest : String) (content : List Nat)
    (mode : Nat) :
    (f.fopenReadFails src = true →
        copy_file f src dest content mode = (none, [.errOpenSrcFile src]))
    ∧ ((copy_file f src dest content mode).1 ≠ none →
        f.fopenReadFails src = false) := by
  constructor
  · intro h
    simp [copy_file, h]
  · intro h
    by_cases hb : f.fopenReadFails src = true
    · exact absurd (by simp [copy_file, hb]) h
    · simpa using hb

/-- C10 witness: an unreadable source file, evaluated; and a successful
copy whose destination was touched. -/
theorem c10_no_dest_touch_witness :
    copy_file (failRead "/s/x") "/s/x" "/d/x" [1, 2] 420 =
        (none, [.errOpenSrcFile "/s/x"])
    ∧ (failRead "/s/x").fopenReadFails "/s/y" = false :=
  ⟨(c10_no_dest_touch (failRead "/s/x") "/s/x" "/d/x" [1, 2] 420).1 (by decide),
   (c10_no_dest_touch (failRead "/s/x") "/s/y" "/d/y" [1, 2] 420).2 (by decide)⟩

end Backup
